import Mathlib

/-!
Shallow embedding of the OVN route-agent handler from
`pkg/routeagent_driver/handlers/ovn/uninstall.go` of the submariner
repository, together with theorems settling the frozen claims about it.

Kernel-facing calls (iptables, netlink, ovs-vsctl) are modelled as
observable events collected in a trace; an oracle `env : Ev → Bool`
decides whether each individual call succeeds (fault injection).
Functions return the updated handler state, the trace of issued calls,
and an optional error identified by the failing call.
-/

namespace SubmarinerOVN

/-- A remote cluster endpoint as consumed by the handler: unique name,
backend kind, and the list of advertised subnet CIDR strings
(`submV1.Endpoint` fields used by `uninstall.go`). -/
structure Endpoint where
  name : String
  backend : String
  subnets : List String
deriving DecidableEq, Repr

/-- An IPv4 policy-routing rule as returned by `netlink.RuleList`; only the
route-table identifier is inspected by the code, `id` distinguishes rules. -/
structure Rule where
  table : Nat
  id : Nat
deriving DecidableEq, Repr

/-- Modelled from the spec: the two fixed reserved route-table identifiers
(inter-cluster table and host-network table) from the repository's
`constants` package, which is not under src/. Concrete values are the
repository's well-known ones; only their fixedness matters here. -/
def RouteAgentInterClusterNetworkTableID : Nat := 149

/-- Modelled from the spec: the host-network reserved route-table id. -/
def RouteAgentHostNetworkTableID : Nat := 150

/-- Modelled from the spec: fixed iptables table/chain names from the
repository's `constants` package and the ovn package constants, which are
not under src/; only their fixedness and distinctness matter. -/
def FilterTable : String := "filter"

/-- Modelled from the spec: the parent forward chain name. -/
def ForwardChain : String := "FORWARD"

/-- Modelled from the spec: the Submariner forward chain name. -/
def forwardingSubmarinerFWDChain : String := "SUBMARINER-FORWARD"

/-- Modelled from the spec: the NAT table name. -/
def NATTable : String := "nat"

/-- Modelled from the spec: the parent post-routing chain name. -/
def PostRoutingChain : String := "POSTROUTING"

/-- Modelled from the spec: the Submariner post-routing chain name. -/
def SmPostRoutingChain : String := "SUBMARINER-POSTROUTING"

/-- Modelled from the spec: the Submariner OVN bridge name constant. -/
def ovnK8sSubmarinerBridge : String := "br-submariner"

/-- Modelled from the spec: the Submariner OVN internal port name constant. -/
def ovnK8sSubmarinerInterface : String := "ovn-k8s-sub0"

/-- Modelled from the spec: the fixed, well-known device name of the
wireguard backend (`wireguard.DefaultDeviceName`, not under src/). -/
def wireguardDefaultDeviceName : String := "submariner"

/-- Observable operations issued by the handler. Kernel / ovs calls plus
the internal gateway-flag mutation (`setGatewayFlag`), which is recorded
in the trace so that ordering claims about the flag flip can be stated. -/
inductive Ev where
  | delInternalPort (bridge iface : String)
  | delBridge (bridge : String)
  | ruleList
  | ruleDel (r : Rule)
  | flushRouteTable (tableId : Nat)
  | clearChain (table chain : String)
  | iptDelete (table chain : String) (ruleSpec : List String)
  | deleteChain (table chain : String)
  | addNoMasquerade (subnet : String)
  | removeNoMasquerade (subnet : String)
  | updateHostNetworkDataplane
  | updateGatewayDataplane
  | cleanupGatewayDataplane
  | setGatewayFlag (b : Bool)
deriving DecidableEq, Repr

/-- Fault-injection oracle: decides whether a given kernel call succeeds. -/
abbrev Env := Ev → Bool

/-- The mutable handler state relevant to the claims: the configured CIDRs,
the cached cable routing interface (by name), the remote endpoint map
(association list keyed by endpoint name), and the gateway-role flag. -/
structure Handler where
  serviceCIDR : List String
  clusterCIDR : List String
  cableRoutingInterface : Option String
  remoteEndpoints : List (String × Endpoint)
  isGateway : Bool
deriving DecidableEq, Repr

/-- Go map upsert `m[k] = v`: replace the value when the key is present,
otherwise add the binding. -/
def upsert (m : List (String × Endpoint)) (k : String) (v : Endpoint) :
    List (String × Endpoint) :=
  if m.any (fun p => decide (p.1 = k)) then
    m.map (fun p => if p.1 = k then (k, v) else p)
  else
    m ++ [(k, v)]

/-- Go map delete `delete(m, k)`. -/
def removeKey (m : List (String × Endpoint)) (k : String) :
    List (String × Endpoint) :=
  m.filter (fun p => !(decide (p.1 = k)))

/-- Go map lookup `m[k]`. -/
def lookupEp : List (String × Endpoint) → String → Option Endpoint
  | [], _ => none
  | p :: m, k => if p.1 = k then some p.2 else lookupEp m k

/-- Iterate `for _, subnet := range subnets` issuing one no-masquerade
iptables operation (built by `mk`) per subnet; abort with the error on the
first failing operation, as `addNoMasqueradeIPTables` failures do in
`RemoteEndpointCreated` / the role transitions. -/
def noMasqSubnets (env : Env) (mk : String → Ev) : List String → List Ev × Option Ev
  | [] => ([], none)
  | s :: rest =>
    let e := mk s
    if env e then
      let res := noMasqSubnets env mk rest
      (e :: res.1, res.2)
    else
      ([e], some e)

/-- Iterate `for _, endpoint := range ovn.remoteEndpoints` applying
`noMasqSubnets` to each endpoint's subnets, aborting on the first error. -/
def noMasqEndpoints (env : Env) (mk : String → Ev) :
    List (String × Endpoint) → List Ev × Option Ev
  | [] => ([], none)
  | p :: rest =>
    match noMasqSubnets env mk p.2.subnets with
    | (tr, some e) => (tr, some e)
    | (tr, none) =>
      let res := noMasqEndpoints env mk rest
      (tr ++ res.1, res.2)

/-- `TransitionToGateway` (uninstall.go lines 366-381): under the lock, set
`isGateway = true`, then add the no-masquerade rules for every subnet of
every known remote endpoint (aborting on the first failure), then run
`updateGatewayDataplane`. -/
def TransitionToGateway (env : Env) (ovn : Handler) :
    Handler × List Ev × Option Ev :=
  let ovn := { ovn with isGateway := true }
  let pre : List Ev := [Ev.setGatewayFlag true]
  match noMasqEndpoints env Ev.addNoMasquerade ovn.remoteEndpoints with
  | (tr, some e) => (ovn, pre ++ tr, some e)
  | (tr, none) =>
    let e := Ev.updateGatewayDataplane
    (ovn, pre ++ tr ++ [e], if env e then none else some e)

/-- `TransitionToNonGateway` (uninstall.go lines 350-364): under the lock,
set `isGateway = false`, then remove the no-masquerade rules for every
subnet of every known remote endpoint (aborting on the first failure),
then run `cleanupGatewayDataplane`. -/
def TransitionToNonGateway (env : Env) (ovn : Handler) :
    Handler × List Ev × Option Ev :=
  let ovn := { ovn with isGateway := false }
  let pre : List Ev := [Ev.setGatewayFlag false]
  match noMasqEndpoints env Ev.removeNoMasquerade ovn.remoteEndpoints with
  | (tr, some e) => (ovn, pre ++ tr, some e)
  | (tr, none) =>
    let e := Ev.cleanupGatewayDataplane
    (ovn, pre ++ tr ++ [e], if env e then none else some e)

/-- `RemoteEndpointCreated` (uninstall.go lines 271-300). `overlapping`
abstracts `cidr.OverlappingSubnets` (whose definition lives in the
repository's cidr package, not under src/): it returns `true` exactly when
that function returns a non-nil error for the given service CIDRs, cluster
CIDRs and endpoint subnets. On overlap: log and return nil without
touching state. Otherwise: upsert, run host-network reconciliation, and if
gateway add the endpoint's no-masquerade rules then run gateway
reconciliation. -/
def RemoteEndpointCreated
    (overlapping : List String → List String → List String → Bool)
    (env : Env) (ovn : Handler) (endpoint : Endpoint) :
    Handler × List Ev × Option Ev :=
  if overlapping ovn.serviceCIDR ovn.clusterCIDR endpoint.subnets then
    (ovn, [], none)
  else
    let ovn := { ovn with
      remoteEndpoints := upsert ovn.remoteEndpoints endpoint.name endpoint }
    let eHost := Ev.updateHostNetworkDataplane
    if env eHost then
      if ovn.isGateway then
        match noMasqSubnets env Ev.addNoMasquerade endpoint.subnets with
        | (tr, some e) => (ovn, eHost :: tr, some e)
        | (tr, none) =>
          let eGw := Ev.updateGatewayDataplane
          (ovn, eHost :: tr ++ [eGw], if env eGw then none else some eGw)
      else
        (ovn, [eHost], none)
    else
      (ovn, [eHost], some eHost)

/-- `RemoteEndpointUpdated` (uninstall.go lines 302-324). Same overlap
check and upsert as `RemoteEndpointCreated`, then host-network
reconciliation, then — if gateway — gateway reconciliation only (no
per-subnet no-masquerade loop). -/
def RemoteEndpointUpdated
    (overlapping : List String → List String → List String → Bool)
    (env : Env) (ovn : Handler) (endpoint : Endpoint) :
    Handler × List Ev × Option Ev :=
  if overlapping ovn.serviceCIDR ovn.clusterCIDR endpoint.subnets then
    (ovn, [], none)
  else
    let ovn := { ovn with
      remoteEndpoints := upsert ovn.remoteEndpoints endpoint.name endpoint }
    let eHost := Ev.updateHostNetworkDataplane
    if env eHost then
      if ovn.isGateway then
        let eGw := Ev.updateGatewayDataplane
        (ovn, [eHost, eGw], if env eGw then none else some eGw)
      else
        (ovn, [eHost], none)
    else
      (ovn, [eHost], some eHost)

/-- `RemoteEndpointRemoved` (uninstall.go lines 326-348): delete the key,
run host-network reconciliation, and if gateway remove the endpoint's
no-masquerade rules then run gateway reconciliation. -/
def RemoteEndpointRemoved (env : Env) (ovn : Handler) (endpoint : Endpoint) :
    Handler × List Ev × Option Ev :=
  let ovn := { ovn with
    remoteEndpoints := removeKey ovn.remoteEndpoints endpoint.name }
  let eHost := Ev.updateHostNetworkDataplane
  if env eHost then
    if ovn.isGateway then
      match noMasqSubnets env Ev.removeNoMasquerade endpoint.subnets with
      | (tr, some e) => (ovn, eHost :: tr, some e)
      | (tr, none) =>
        let eGw := Ev.updateGatewayDataplane
        (ovn, eHost :: tr ++ [eGw], if env eGw then none else some eGw)
    else
      (ovn, [eHost], none)
  else
    (ovn, [eHost], some eHost)

/-- Outcome of `LocalEndpointCreated`: success, an error returned to the
caller, or process termination via `logger.Fatalf`. -/
inductive LECResult where
  | ok
  | err
  | fatal
deriving DecidableEq, Repr

/-- `LocalEndpointCreated` (uninstall.go lines 247-269). For the wireguard
backend the routing interface is looked up by the fixed device name and a
lookup failure is returned as an error; for any other backend the default
gateway interface is looked up and a failure terminates the process. On
success the resolved interface is cached under the lock. -/
def LocalEndpointCreated (ifaceByName : String → Option String)
    (defaultGatewayIface : Option String) (ovn : Handler)
    (endpoint : Endpoint) : Handler × LECResult :=
  if endpoint.backend = "wireguard" then
    match ifaceByName wireguardDefaultDeviceName with
    | none => (ovn, LECResult.err)
    | some i => ({ ovn with cableRoutingInterface := some i }, LECResult.ok)
  else
    match defaultGatewayIface with
    | none => (ovn, LECResult.fatal)
    | some i => ({ ovn with cableRoutingInterface := some i }, LECResult.ok)

/-- Whether a policy-routing rule's table matches one of the two reserved
route-table identifiers (the condition at uninstall.go line 76). -/
def matchingRule (r : Rule) : Bool :=
  decide (r.table = RouteAgentInterClusterNetworkTableID) ||
    decide (r.table = RouteAgentHostNetworkTableID)

/-- The deletion loop of `cleanupRoutes` (uninstall.go lines 75-82):
delete each rule whose table matches a reserved id, returning the error of
the first failing deletion, which aborts the loop. -/
def ruleDels (env : Env) : List Rule → List Ev × Option Ev
  | [] => ([], none)
  | r :: rest =>
    if matchingRule r then
      let e := Ev.ruleDel r
      if env e then
        let res := ruleDels env rest
        (e :: res.1, res.2)
      else
        ([e], some e)
    else
      ruleDels env rest

/-- `cleanupRoutes` (uninstall.go lines 69-85): list the IPv4 rules (an
error there is returned immediately), then run the deletion loop. `rules`
is the list the kernel would return. -/
def cleanupRoutes (env : Env) (rules : List Rule) : List Ev × Option Ev :=
  if env Ev.ruleList then
    let res := ruleDels env rules
    (Ev.ruleList :: res.1, res.2)
  else
    ([Ev.ruleList], some Ev.ruleList)

/-- `flushAndDeleteIPTableChains` (uninstall.go lines 87-107): clear the
Submariner chain, delete the jump rule from the parent chain, delete the
Submariner chain — always all three, in that order; each failure is only
logged, so the trace does not depend on the oracle. -/
def flushAndDeleteIPTableChains (table tableChain submarinerChain : String) :
    List Ev :=
  [Ev.clearChain table submarinerChain,
   Ev.iptDelete table tableChain ["-j", submarinerChain],
   Ev.deleteChain table submarinerChain]

/-- `Stop` (uninstall.go lines 29-67): no-op unless `uninstall`; otherwise
delete the Submariner port, delete the bridge, clean up routing rules,
flush the two reserved route tables, and tear down both iptables chain
pairs — every step's error is logged and the function returns nil. -/
def Stop (env : Env) (rules : List Rule) (ovn : Handler) (uninstall : Bool) :
    Handler × List Ev × Option Ev :=
  if !uninstall then
    (ovn, [], none)
  else
    let tr1 : List Ev :=
      [Ev.delInternalPort ovnK8sSubmarinerBridge ovnK8sSubmarinerInterface,
       Ev.delBridge ovnK8sSubmarinerBridge]
    let tr3 := (cleanupRoutes env rules).1
    let tr4 : List Ev :=
      [Ev.flushRouteTable RouteAgentInterClusterNetworkTableID,
       Ev.flushRouteTable RouteAgentHostNetworkTableID]
    let tr6 := flushAndDeleteIPTableChains FilterTable ForwardChain
      forwardingSubmarinerFWDChain
    let tr7 := flushAndDeleteIPTableChains NATTable PostRoutingChain
      SmPostRoutingChain
    (ovn, tr1 ++ tr3 ++ tr4 ++ tr6 ++ tr7, none)

/-- Whether an event is a NAT-exemption (no-masquerade) operation. -/
def isNoMasqEv : Ev → Bool
  | Ev.addNoMasquerade _ => true
  | Ev.removeNoMasquerade _ => true
  | _ => false

/-- Whether an event is a NAT-exemption add operation. -/
def isAddNoMasqEv : Ev → Bool
  | Ev.addNoMasquerade _ => true
  | _ => false

/-- Whether an event is a NAT-exemption remove operation. -/
def isRemoveNoMasqEv : Ev → Bool
  | Ev.removeNoMasquerade _ => true
  | _ => false

/-- Whether an event is the gateway-role flag flip. -/
def isFlagEv : Ev → Bool
  | Ev.setGatewayFlag _ => true
  | _ => false

/-- The ordering property asserted by the spec for role transitions: in
the trace, no NAT-exemption operation occurs after a flag-flip event
(equivalently, the flag flip happens only after all NAT-exemption
operations). -/
def noNoMasqAfterFlag : List Ev → Bool
  | [] => true
  | e :: rest =>
    if isFlagEv e then
      rest.all (fun x => !isNoMasqEv x) && noNoMasqAfterFlag rest
    else
      noNoMasqAfterFlag rest

/-- Total number of subnets over all endpoints of the set. -/
def totalSubnets (m : List (String × Endpoint)) : Nat :=
  (m.map (fun p => p.2.subnets.length)).sum

/-- An all-success oracle, used for concrete scenarios. -/
def envAllOk : Env := fun _ => true

/-- Endpoint A of the spec's concrete transition scenario. -/
def epA : Endpoint :=
  { name := "A", backend := "libreswan", subnets := ["10.1.0.0/24"] }

/-- Endpoint B of the spec's concrete transition scenario. -/
def epB : Endpoint :=
  { name := "B", backend := "libreswan", subnets := ["10.2.0.0/24"] }

/-- The spec's concrete transition scenario: a handler knowing endpoints A
and B, currently non-gateway. -/
def stAB : Handler :=
  { serviceCIDR := ["100.64.0.0/16"], clusterCIDR := ["192.168.0.0/16"],
    cableRoutingInterface := none,
    remoteEndpoints := [("A", epA), ("B", epB)], isGateway := false }

/-- Looking up the upserted key yields the upserted value. -/
lemma lookupEp_upsert (m : List (String × Endpoint)) (k : String) (v : Endpoint) :
    lookupEp (upsert m k v) k = some v := by
  induction m with
  | nil => simp [upsert, lookupEp]
  | cons p m ih =>
    by_cases hp : p.1 = k
    · simp [upsert, List.any_cons, hp, lookupEp]
    · by_cases hm : m.any (fun q => decide (q.1 = k)) = true
      · simp only [upsert, List.any_cons, hp, hm] at ih ⊢
        simp only [if_true, eq_self_iff_true] at ih
        simp [hp, hm, lookupEp, ih]
      · simp only [upsert, List.any_cons, hp, hm] at ih ⊢
        simp only [Bool.false_eq_true, if_false] at ih
        simp [hp, hm, lookupEp, ih]

/-- Looking up a removed key yields nothing. -/
lemma lookupEp_removeKey (m : List (String × Endpoint)) (k : String) :
    lookupEp (removeKey m k) k = none := by
  induction m with
  | nil => simp [removeKey, lookupEp]
  | cons p m ih =>
    by_cases hp : p.1 = k
    · simpa [removeKey, hp] using ih
    · simpa [removeKey, hp, lookupEp] using ih

/-- When every per-subnet operation succeeds, the subnet loop issues one
operation per subnet, in order, and reports no error. -/
lemma noMasqSubnets_all_ok (env : Env) (mk : String → Ev)
    (h : ∀ s, env (mk s) = true) (sub : List String) :
    noMasqSubnets env mk sub = (sub.map mk, none) := by
  induction sub with
  | nil => rfl
  | cons s rest ih => simp [noMasqSubnets, h, ih]

/-- When every per-subnet operation succeeds, the endpoint loop issues one
operation per subnet of each endpoint and reports no error. -/
lemma noMasqEndpoints_all_ok (env : Env) (mk : String → Ev)
    (h : ∀ s, env (mk s) = true) (eps : List (String × Endpoint)) :
    noMasqEndpoints env mk eps =
      ((eps.map (fun p => p.2.subnets.map mk)).flatten, none) := by
  induction eps with
  | nil => rfl
  | cons p rest ih =>
    simp [noMasqEndpoints, noMasqSubnets_all_ok env mk h, ih]

/-- Counting events that the constructor `mk` always satisfies over a
mapped subnet list gives the list's length. -/
lemma countP_map_eq_length (q : Ev → Bool) (mk : String → Ev)
    (hq : ∀ s, q (mk s) = true) (l : List String) :
    (l.map mk).countP q = l.length := by
  induction l with
  | nil => rfl
  | cons s rest ih => simp [List.countP_cons, hq, ih]

/-- With an all-success oracle for `mk`-operations, the endpoint loop's
trace holds exactly one `q`-counted event per subnet of the set. -/
lemma noMasqEndpoints_countP (env : Env) (mk : String → Ev) (q : Ev → Bool)
    (henv : ∀ s, env (mk s) = true) (hq : ∀ s, q (mk s) = true)
    (eps : List (String × Endpoint)) :
    ((noMasqEndpoints env mk eps).1).countP q = totalSubnets eps := by
  rw [noMasqEndpoints_all_ok env mk henv]
  simp only [List.countP_flatten, List.map_map]
  have hcong : ∀ l : List (String × Endpoint),
      List.map (List.countP q ∘ fun p => List.map mk p.2.subnets) l
        = List.map (fun p => p.2.subnets.length) l := by
    intro l
    induction l with
    | nil => rfl
    | cons p rest ih => simp [ih, countP_map_eq_length q mk hq]
  rw [hcong]
  rfl

/-- Every event issued by the subnet loop is an `mk`-operation. -/
lemma noMasqSubnets_mem (env : Env) (mk : String → Ev) (sub : List String) :
    ∀ e ∈ (noMasqSubnets env mk sub).1, ∃ s, e = mk s := by
  induction sub with
  | nil => simp [noMasqSubnets]
  | cons s rest ih =>
    intro e he
    cases h : env (mk s) with
    | true =>
      simp only [noMasqSubnets, h] at he
      simp only [if_true, List.mem_cons] at he
      rcases he with he | he
      · exact ⟨s, he⟩
      · exact ih e he
    | false =>
      simp only [noMasqSubnets, h] at he
      simp only [Bool.false_eq_true, if_false, List.mem_singleton] at he
      exact ⟨s, he⟩

/-- Every event issued by the endpoint loop is an `mk`-operation. -/
lemma noMasqEndpoints_mem (env : Env) (mk : String → Ev)
    (eps : List (String × Endpoint)) :
    ∀ e ∈ (noMasqEndpoints env mk eps).1, ∃ s, e = mk s := by
  induction eps with
  | nil => simp [noMasqEndpoints]
  | cons p rest ih =>
    intro e he
    rcases hs : noMasqSubnets env mk p.2.subnets with ⟨tr, r⟩
    have htr : ∀ x ∈ tr, ∃ s, x = mk s := by
      intro x hx
      exact noMasqSubnets_mem env mk p.2.subnets x (by rw [hs]; exact hx)
    simp only [noMasqEndpoints] at he
    rw [hs] at he
    cases r with
    | some err => exact htr e he
    | none =>
      rcases List.mem_append.mp he with h1 | h1
      · exact htr e h1
      · exact ih e h1

/-- The state after `TransitionToGateway` has the flag set, whatever the
oracle does. -/
lemma TransitionToGateway_state (env : Env) (ovn : Handler) :
    (TransitionToGateway env ovn).1 = { ovn with isGateway := true } := by
  rcases hs : noMasqEndpoints env Ev.addNoMasquerade ovn.remoteEndpoints with ⟨tr, r⟩
  cases r <;> simp [TransitionToGateway, hs]

/-- The state after `TransitionToNonGateway` has the flag cleared, whatever
the oracle does. -/
lemma TransitionToNonGateway_state (env : Env) (ovn : Handler) :
    (TransitionToNonGateway env ovn).1 = { ovn with isGateway := false } := by
  rcases hs : noMasqEndpoints env Ev.removeNoMasquerade ovn.remoteEndpoints with ⟨tr, r⟩
  cases r <;> simp [TransitionToNonGateway, hs]

/-- The trace of `TransitionToGateway`: the flag flip, then the per-subnet
adds, then — only if no add failed — gateway reconciliation. -/
lemma TransitionToGateway_trace (env : Env) (ovn : Handler) :
    (TransitionToGateway env ovn).2.1 =
      Ev.setGatewayFlag true ::
        ((noMasqEndpoints env Ev.addNoMasquerade ovn.remoteEndpoints).1
          ++ (if (noMasqEndpoints env Ev.addNoMasquerade ovn.remoteEndpoints).2 = none
              then [Ev.updateGatewayDataplane] else [])) := by
  rcases hs : noMasqEndpoints env Ev.addNoMasquerade ovn.remoteEndpoints with ⟨tr, r⟩
  cases r <;> simp [TransitionToGateway, hs]

/-- The trace of `TransitionToNonGateway`: the flag flip, then the
per-subnet removes, then — only if no remove failed — gateway dataplane
cleanup. -/
lemma TransitionToNonGateway_trace (env : Env) (ovn : Handler) :
    (TransitionToNonGateway env ovn).2.1 =
      Ev.setGatewayFlag false ::
        ((noMasqEndpoints env Ev.removeNoMasquerade ovn.remoteEndpoints).1
          ++ (if (noMasqEndpoints env Ev.removeNoMasquerade ovn.remoteEndpoints).2 = none
              then [Ev.cleanupGatewayDataplane] else [])) := by
  rcases hs : noMasqEndpoints env Ev.removeNoMasquerade ovn.remoteEndpoints with ⟨tr, r⟩
  cases r <;> simp [TransitionToNonGateway, hs]

/-- C1, counterexample. The claim says the per-subnet NAT-exemption
operations all precede the GatewayRole flag flip. On the concrete scenario
state (endpoints A and B, one subnet each, all kernel calls succeeding)
both transitions flip the flag first, so NAT-exemption operations do occur
after the flag flip. -/
theorem C1_counterexample :
    noNoMasqAfterFlag (TransitionToGateway envAllOk stAB).2.1 = false
    ∧ noNoMasqAfterFlag
        (TransitionToNonGateway envAllOk { stAB with isGateway := true }).2.1 = false := by
  constructor <;> rfl

/-- C1, amended: for every oracle and state, TransitionToGateway
(respectively TransitionToNonGateway) first flips the GatewayRole flag and
only then iterates the RemoteEndpointSet issuing the per-subnet
NAT-exemption add (respectively remove) operations; no NAT-exemption
operation is issued before the flag flip, the flag is flipped exactly once
(at the head of the trace), and the resulting state carries the new role. -/
theorem C1_transition_flag_first (env : Env) (ovn : Handler) :
    ((TransitionToGateway env ovn).2.1.head? = some (Ev.setGatewayFlag true)
      ∧ (TransitionToGateway env ovn).2.1.tail.all (fun e => !isFlagEv e) = true
      ∧ (TransitionToGateway env ovn).1.isGateway = true)
    ∧ ((TransitionToNonGateway env ovn).2.1.head? = some (Ev.setGatewayFlag false)
      ∧ (TransitionToNonGateway env ovn).2.1.tail.all (fun e => !isFlagEv e) = true
      ∧ (TransitionToNonGateway env ovn).1.isGateway = false) := by
  constructor
  · refine ⟨?_, ?_, ?_⟩
    · rw [TransitionToGateway_trace]
      rfl
    · rw [TransitionToGateway_trace]
      simp only [List.tail_cons]
      rw [List.all_eq_true]
      intro e he
      rcases List.mem_append.mp he with h1 | h1
      · rcases noMasqEndpoints_mem env Ev.addNoMasquerade ovn.remoteEndpoints e h1 with
          ⟨s, rfl⟩
        rfl
      · by_cases hn : (noMasqEndpoints env Ev.addNoMasquerade ovn.remoteEndpoints).2 = none
        · rw [if_pos hn] at h1
          simp only [List.mem_singleton] at h1
          subst h1
          rfl
        · rw [if_neg hn] at h1
          simp at h1
    · rw [TransitionToGateway_state]
  · refine ⟨?_, ?_, ?_⟩
    · rw [TransitionToNonGateway_trace]
      rfl
    · rw [TransitionToNonGateway_trace]
      simp only [List.tail_cons]
      rw [List.all_eq_true]
      intro e he
      rcases List.mem_append.mp he with h1 | h1
      · rcases noMasqEndpoints_mem env Ev.removeNoMasquerade ovn.remoteEndpoints e h1 with
          ⟨s, rfl⟩
        rfl
      · by_cases hn : (noMasqEndpoints env Ev.removeNoMasquerade ovn.remoteEndpoints).2 = none
        · rw [if_pos hn] at h1
          simp only [List.mem_singleton] at h1
          subst h1
          rfl
        · rw [if_neg hn] at h1
          simp at h1
    · rw [TransitionToNonGateway_state]

/-- C3: a remote endpoint whose subnets overlap the configured service or
cluster CIDRs is rejected by RemoteEndpointCreated and
RemoteEndpointUpdated: both return nil, leave the handler state (hence
RemoteEndpointSet) unchanged, and issue no kernel calls. -/
theorem C3_overlap_rejected
    (overlapping : List String → List String → List String → Bool)
    (env : Env) (ovn : Handler) (ep : Endpoint)
    (h : overlapping ovn.serviceCIDR ovn.clusterCIDR ep.subnets = true) :
    RemoteEndpointCreated overlapping env ovn ep = (ovn, [], none)
    ∧ RemoteEndpointUpdated overlapping env ovn ep = (ovn, [], none) := by
  constructor
  · simp [RemoteEndpointCreated, h]
  · simp [RemoteEndpointUpdated, h]

/-- An overlap oracle reporting every endpoint as overlapping. -/
def overlapAlways : List String → List String → List String → Bool :=
  fun _ _ _ => true

/-- C3, witness: the overlap rejection evaluated on the concrete scenario
state and endpoint A. -/
theorem C3_overlap_rejected_witness :
    RemoteEndpointCreated overlapAlways envAllOk stAB epA = (stAB, [], none)
    ∧ RemoteEndpointUpdated overlapAlways envAllOk stAB epA = (stAB, [], none) :=
  C3_overlap_rejected overlapAlways envAllOk stAB epA rfl

/-- C4: when no per-subnet operation fails, a gateway-role transition over
a set of k endpoints with n_1..n_k subnets issues exactly n_1 + ... + n_k
NAT-exemption adds (TransitionToGateway), respectively removes
(TransitionToNonGateway), one per subnet of each known endpoint. -/
theorem C4_transition_op_count (env : Env) (ovn : Handler)
    (hAdd : ∀ s, env (Ev.addNoMasquerade s) = true)
    (hRem : ∀ s, env (Ev.removeNoMasquerade s) = true) :
    (TransitionToGateway env ovn).2.1.countP isAddNoMasqEv
        = totalSubnets ovn.remoteEndpoints
    ∧ (TransitionToNonGateway env ovn).2.1.countP isRemoveNoMasqEv
        = totalSubnets ovn.remoteEndpoints := by
  constructor
  · have h2 : (noMasqEndpoints env Ev.addNoMasquerade ovn.remoteEndpoints).2 = none := by
      rw [noMasqEndpoints_all_ok env Ev.addNoMasquerade hAdd]
    rw [TransitionToGateway_trace, h2, if_pos rfl, List.countP_cons, List.countP_append,
      noMasqEndpoints_countP env Ev.addNoMasquerade isAddNoMasqEv hAdd (fun _ => rfl)]
    simp [isAddNoMasqEv, List.countP_cons]
  · have h2 : (noMasqEndpoints env Ev.removeNoMasquerade ovn.remoteEndpoints).2 = none := by
      rw [noMasqEndpoints_all_ok env Ev.removeNoMasquerade hRem]
    rw [TransitionToNonGateway_trace, h2, if_pos rfl, List.countP_cons, List.countP_append,
      noMasqEndpoints_countP env Ev.removeNoMasquerade isRemoveNoMasqEv hRem (fun _ => rfl)]
    simp [isRemoveNoMasqEv, List.countP_cons]

/-- C4, witness: on the concrete scenario state with endpoints A and B (one
subnet each) and an all-success oracle, both transitions issue exactly two
NAT-exemption operations. -/
theorem C4_transition_op_count_witness :
    (TransitionToGateway envAllOk stAB).2.1.countP isAddNoMasqEv
        = totalSubnets stAB.remoteEndpoints
    ∧ (TransitionToNonGateway envAllOk stAB).2.1.countP isRemoveNoMasqEv
        = totalSubnets stAB.remoteEndpoints
    ∧ totalSubnets stAB.remoteEndpoints = 2 :=
  ⟨(C4_transition_op_count envAllOk stAB (fun _ => rfl) (fun _ => rfl)).1,
   (C4_transition_op_count envAllOk stAB (fun _ => rfl) (fun _ => rfl)).2,
   rfl⟩

/-- C6: for every fault pattern, Stop(true) performs the whole teardown in
the fixed order — port delete, bridge delete, routing-rule cleanup, the two
route-table flushes, then both chain-pair teardowns — leaves the handler
state untouched, and Stop always returns nil. -/
theorem C6_stop_uninstall_best_effort (env : Env) (rules : List Rule) (ovn : Handler) :
    (∀ u, (Stop env rules ovn u).2.2 = none)
    ∧ (Stop env rules ovn true).1 = ovn
    ∧ (Stop env rules ovn true).2.1 =
        [Ev.delInternalPort ovnK8sSubmarinerBridge ovnK8sSubmarinerInterface,
         Ev.delBridge ovnK8sSubmarinerBridge]
        ++ (cleanupRoutes env rules).1
        ++ [Ev.flushRouteTable RouteAgentInterClusterNetworkTableID,
            Ev.flushRouteTable RouteAgentHostNetworkTableID]
        ++ flushAndDeleteIPTableChains FilterTable ForwardChain
            forwardingSubmarinerFWDChain
        ++ flushAndDeleteIPTableChains NATTable PostRoutingChain
            SmPostRoutingChain := by
  refine ⟨fun u => ?_, rfl, rfl⟩
  cases u <;> rfl

/-- C7: chain-pair teardown always performs exactly its three
sub-operations in order — clear the Submariner chain, delete the jump rule
from the parent chain, delete the Submariner chain — independently of any
failures, and Stop(true) ends with both chain pairs torn down this way. -/
theorem C7_chain_teardown_order (env : Env) (rules : List Rule) (ovn : Handler)
    (table tableChain submarinerChain : String) :
    flushAndDeleteIPTableChains table tableChain submarinerChain =
      [Ev.clearChain table submarinerChain,
       Ev.iptDelete table tableChain ["-j", submarinerChain],
       Ev.deleteChain table submarinerChain]
    ∧ ∃ pre, (Stop env rules ovn true).2.1 =
        pre ++ (flushAndDeleteIPTableChains FilterTable ForwardChain
            forwardingSubmarinerFWDChain
          ++ flushAndDeleteIPTableChains NATTable PostRoutingChain
            SmPostRoutingChain) := by
  refine ⟨rfl,
    ⟨[Ev.delInternalPort ovnK8sSubmarinerBridge ovnK8sSubmarinerInterface,
      Ev.delBridge ovnK8sSubmarinerBridge]
      ++ (cleanupRoutes env rules).1
      ++ [Ev.flushRouteTable RouteAgentInterClusterNetworkTableID,
          Ev.flushRouteTable RouteAgentHostNetworkTableID], ?_⟩⟩
  simp [Stop, List.append_assoc]

/-- C9: Stop(false) is a no-op for every handler state and fault pattern:
it returns nil, issues no kernel calls, and leaves the whole handler state
(RemoteEndpointSet, GatewayRole flag, cached routing interface) unchanged. -/
theorem C9_stop_noop (env : Env) (rules : List Rule) (ovn : Handler) :
    Stop env rules ovn false = (ovn, [], none) := rfl

/-- An overlap oracle reporting no endpoint as overlapping. -/
def overlapNever : List String → List String → List String → Bool :=
  fun _ _ _ => false

/-- Endpoint C, used for update/create scenarios. -/
def epC : Endpoint :=
  { name := "C", backend := "libreswan", subnets := ["10.9.0.0/24"] }

/-- A fault pattern failing exactly the host-network reconciliation call. -/
def envHostFails : Env := fun e => !(decide (e = Ev.updateHostNetworkDataplane))

/-- A fault pattern failing exactly the deletion of one specific rule. -/
def envFailFirstDel : Env := fun e => !(decide (e = Ev.ruleDel ⟨149, 0⟩))

/-- Whatever the oracle does, a non-overlapping RemoteEndpointCreated
leaves the handler with the endpoint upserted. -/
lemma RemoteEndpointCreated_state
    (overlapping : List String → List String → List String → Bool)
    (env : Env) (ovn : Handler) (ep : Endpoint)
    (hov : overlapping ovn.serviceCIDR ovn.clusterCIDR ep.subnets = false) :
    (RemoteEndpointCreated overlapping env ovn ep).1
      = { ovn with remoteEndpoints := upsert ovn.remoteEndpoints ep.name ep } := by
  by_cases henv : env Ev.updateHostNetworkDataplane = true
  · by_cases hgw : ovn.isGateway = true
    · rcases hs : noMasqSubnets env Ev.addNoMasquerade ep.subnets with ⟨tr, r⟩
      cases r with
      | some e => simp [RemoteEndpointCreated, hov, henv, hgw, hs]
      | none => simp [RemoteEndpointCreated, hov, henv, hgw, hs]
    · simp [RemoteEndpointCreated, hov, henv, hgw]
  · simp [RemoteEndpointCreated, hov, henv]

/-- Whatever the oracle does, a non-overlapping RemoteEndpointUpdated
leaves the handler with the endpoint upserted. -/
lemma RemoteEndpointUpdated_state
    (overlapping : List String → List String → List String → Bool)
    (env : Env) (ovn : Handler) (ep : Endpoint)
    (hov : overlapping ovn.serviceCIDR ovn.clusterCIDR ep.subnets = false) :
    (RemoteEndpointUpdated overlapping env ovn ep).1
      = { ovn with remoteEndpoints := upsert ovn.remoteEndpoints ep.name ep } := by
  by_cases henv : env Ev.updateHostNetworkDataplane = true
  · by_cases hgw : ovn.isGateway = true
    · simp [RemoteEndpointUpdated, hov, henv, hgw]
    · simp [RemoteEndpointUpdated, hov, henv, hgw]
  · simp [RemoteEndpointUpdated, hov, henv]

/-- Whatever the oracle does, RemoteEndpointRemoved leaves the handler
with the endpoint's key deleted. -/
lemma RemoteEndpointRemoved_state (env : Env) (ovn : Handler) (ep : Endpoint) :
    (RemoteEndpointRemoved env ovn ep).1
      = { ovn with remoteEndpoints := removeKey ovn.remoteEndpoints ep.name } := by
  by_cases henv : env Ev.updateHostNetworkDataplane = true
  · by_cases hgw : ovn.isGateway = true
    · rcases hs : noMasqSubnets env Ev.removeNoMasquerade ep.subnets with ⟨tr, r⟩
      cases r with
      | some e => simp [RemoteEndpointRemoved, henv, hgw, hs]
      | none => simp [RemoteEndpointRemoved, henv, hgw, hs]
    · simp [RemoteEndpointRemoved, henv, hgw]
  · simp [RemoteEndpointRemoved, henv]

/-- C2, counterexample. The claim says that in gateway role
RemoteEndpointUpdated adds NAT-exemption rules for each of the endpoint's
subnets, like RemoteEndpointCreated. On a concrete gateway-role state with
a non-overlapping endpoint C carrying subnet 10.9.0.0/24 and every kernel
call succeeding, the update's trace contains no NAT-exemption add at all. -/
theorem C2_counterexample :
    ({ stAB with isGateway := true } : Handler).isGateway = true
    ∧ overlapNever stAB.serviceCIDR stAB.clusterCIDR epC.subnets = false
    ∧ "10.9.0.0/24" ∈ epC.subnets
    ∧ Ev.addNoMasquerade "10.9.0.0/24" ∉
        (RemoteEndpointUpdated overlapNever envAllOk
          { stAB with isGateway := true } epC).2.1 := by
  refine ⟨rfl, rfl, by decide, by decide⟩

/-- C2, amended: in gateway role, RemoteEndpointUpdated with
non-overlapping subnets upserts the endpoint into RemoteEndpointSet and
re-runs host-network reconciliation, then re-runs gateway reconciliation —
but, unlike RemoteEndpointCreated, it issues no NAT-exemption add for the
endpoint's subnets. -/
theorem C2_updated_gateway_no_nat_adds
    (overlapping : List String → List String → List String → Bool)
    (env : Env) (ovn : Handler) (ep : Endpoint)
    (hov : overlapping ovn.serviceCIDR ovn.clusterCIDR ep.subnets = false)
    (hgw : ovn.isGateway = true) :
    lookupEp (RemoteEndpointUpdated overlapping env ovn ep).1.remoteEndpoints ep.name
        = some ep
    ∧ (RemoteEndpointUpdated overlapping env ovn ep).2.1.countP isNoMasqEv = 0
    ∧ (RemoteEndpointUpdated overlapping env ovn ep).2.1.head?
        = some Ev.updateHostNetworkDataplane
    ∧ (env Ev.updateHostNetworkDataplane = true →
        (RemoteEndpointUpdated overlapping env ovn ep).2.1
          = [Ev.updateHostNetworkDataplane, Ev.updateGatewayDataplane]) := by
  refine ⟨?_, ?_, ?_, ?_⟩
  · rw [RemoteEndpointUpdated_state overlapping env ovn ep hov]
    exact lookupEp_upsert ovn.remoteEndpoints ep.name ep
  · by_cases henv : env Ev.updateHostNetworkDataplane = true
    · simp [RemoteEndpointUpdated, hov, henv, hgw, List.countP_cons, isNoMasqEv]
    · simp [RemoteEndpointUpdated, hov, henv, List.countP_cons, isNoMasqEv]
  · by_cases henv : env Ev.updateHostNetworkDataplane = true
    · simp [RemoteEndpointUpdated, hov, henv, hgw]
    · simp [RemoteEndpointUpdated, hov, henv]
  · intro henv
    simp [RemoteEndpointUpdated, hov, henv, hgw]

/-- C2, amended, witness: evaluated on the concrete gateway-role state and
endpoint C with an all-success oracle. -/
theorem C2_updated_gateway_no_nat_adds_witness :
    lookupEp (RemoteEndpointUpdated overlapNever envAllOk
        { stAB with isGateway := true } epC).1.remoteEndpoints epC.name = some epC
    ∧ (RemoteEndpointUpdated overlapNever envAllOk
        { stAB with isGateway := true } epC).2.1.countP isNoMasqEv = 0
    ∧ (RemoteEndpointUpdated overlapNever envAllOk
        { stAB with isGateway := true } epC).2.1
        = [Ev.updateHostNetworkDataplane, Ev.updateGatewayDataplane] :=
  ⟨(C2_updated_gateway_no_nat_adds overlapNever envAllOk
      { stAB with isGateway := true } epC rfl rfl).1,
   (C2_updated_gateway_no_nat_adds overlapNever envAllOk
      { stAB with isGateway := true } epC rfl rfl).2.1,
   (C2_updated_gateway_no_nat_adds overlapNever envAllOk
      { stAB with isGateway := true } epC rfl rfl).2.2.2 rfl⟩

/-- When every matching deletion succeeds, the rule-deletion loop attempts
one deletion per matching rule, in listing order, and reports no error. -/
lemma ruleDels_all_ok (env : Env)
    (h : ∀ r, matchingRule r = true → env (Ev.ruleDel r) = true)
    (rules : List Rule) :
    ruleDels env rules = ((rules.filter matchingRule).map Ev.ruleDel, none) := by
  induction rules with
  | nil => rfl
  | cons r rest ih =>
    cases hm : matchingRule r with
    | true => simp [ruleDels, hm, h r hm, ih, List.filter_cons]
    | false => simp [ruleDels, hm, ih, List.filter_cons]

/-- The rule-deletion loop stops at the first failing matching deletion:
earlier matching rules are attempted, the failing one is attempted and its
error returned, later rules are not attempted. -/
lemma ruleDels_stops (env : Env) (rules₁ : List Rule) (r : Rule) (rules₂ : List Rule)
    (h1 : ∀ q ∈ rules₁, matchingRule q = true → env (Ev.ruleDel q) = true)
    (hr : matchingRule r = true) (hf : env (Ev.ruleDel r) = false) :
    ruleDels env (rules₁ ++ r :: rules₂)
      = ((rules₁.filter matchingRule).map Ev.ruleDel ++ [Ev.ruleDel r],
         some (Ev.ruleDel r)) := by
  induction rules₁ with
  | nil => simp [ruleDels, hr, hf]
  | cons q rest ih =>
    have ih2 := ih (fun x hx hmx => h1 x (List.mem_cons_of_mem q hx) hmx)
    cases hm : matchingRule q with
    | true =>
      have hq := h1 q (List.mem_cons_self q rest) hm
      simp [ruleDels, hm, hq, ih2, List.filter_cons]
    | false =>
      simp [ruleDels, hm, ih2, List.filter_cons]

/-- C5, counterexample. The claim says a failing rule deletion does not
prevent the remaining matching rules from being attempted. With two rules
in table 149 and the deletion of the first one failing, the second rule's
deletion is never attempted and the error is returned by cleanupRoutes. -/
theorem C5_counterexample :
    matchingRule ⟨149, 1⟩ = true
    ∧ Ev.ruleDel ⟨149, 1⟩ ∉ (cleanupRoutes envFailFirstDel [⟨149, 0⟩, ⟨149, 1⟩]).1
    ∧ (cleanupRoutes envFailFirstDel [⟨149, 0⟩, ⟨149, 1⟩]).2
        = some (Ev.ruleDel ⟨149, 0⟩) := by
  refine ⟨rfl, by decide, rfl⟩

/-- C5, amended: the uninstall rule-cleanup attempts, in listing order, one
deletion per rule whose table matches a reserved id; when every deletion
succeeds all matching rules are attempted, but the first failing deletion
aborts the loop — the remaining matching rules are not attempted — and its
error is returned (Stop then logs it and continues). -/
theorem C5_cleanup_stops_at_first_failure (env : Env) :
    (∀ rules, env Ev.ruleList = true →
       (∀ r, matchingRule r = true → env (Ev.ruleDel r) = true) →
       cleanupRoutes env rules
         = (Ev.ruleList :: (rules.filter matchingRule).map Ev.ruleDel, none))
    ∧ (∀ rules₁ r rules₂, env Ev.ruleList = true →
       (∀ q ∈ rules₁, matchingRule q = true → env (Ev.ruleDel q) = true) →
       matchingRule r = true → env (Ev.ruleDel r) = false →
       cleanupRoutes env (rules₁ ++ r :: rules₂)
         = (Ev.ruleList :: ((rules₁.filter matchingRule).map Ev.ruleDel
             ++ [Ev.ruleDel r]), some (Ev.ruleDel r))) := by
  constructor
  · intro rules hl hall
    simp [cleanupRoutes, hl, ruleDels_all_ok env hall rules]
  · intro rules₁ r rules₂ hl h1 hr hf
    simp [cleanupRoutes, hl, ruleDels_stops env rules₁ r rules₂ h1 hr hf]

/-- C5, amended, witness: with the deletion of rule (149,0) failing, the
cleanup attempts that deletion, returns its error, and never attempts the
rule (149,1) that follows it. -/
theorem C5_cleanup_stops_at_first_failure_witness :
    cleanupRoutes envFailFirstDel [⟨149, 0⟩, ⟨149, 1⟩]
      = ([Ev.ruleList, Ev.ruleDel ⟨149, 0⟩], some (Ev.ruleDel ⟨149, 0⟩)) := by
  have h := (C5_cleanup_stops_at_first_failure envFailFirstDel).2
    [] ⟨149, 0⟩ [⟨149, 1⟩] rfl (by intro q hq; simp at hq) rfl rfl
  simpa using h

/-- C8: for a local endpoint whose backend is the wireguard tunnel kind, a
failed routing-interface resolution makes LocalEndpointCreated return the
error to the caller (not the process-fatal outcome) with the handler state
— in particular the cached CableRoutingInterface — unchanged; a successful
resolution caches the resolved interface. -/
theorem C8_local_endpoint_wireguard (ifaceByName : String → Option String)
    (defGw : Option String) (ovn : Handler) (ep : Endpoint)
    (h : ep.backend = "wireguard") :
    (ifaceByName wireguardDefaultDeviceName = none →
       LocalEndpointCreated ifaceByName defGw ovn ep = (ovn, LECResult.err))
    ∧ (∀ i, ifaceByName wireguardDefaultDeviceName = some i →
       LocalEndpointCreated ifaceByName defGw ovn ep =
         ({ ovn with cableRoutingInterface := some i }, LECResult.ok)) := by
  constructor
  · intro hn
    simp [LocalEndpointCreated, h, hn]
  · intro i hi
    simp [LocalEndpointCreated, h, hi]

/-- A local endpoint with the wireguard backend. -/
def epWG : Endpoint := { name := "local", backend := "wireguard", subnets := [] }

/-- C8, witness: both the failing and the succeeding resolution evaluated
on concrete inputs. -/
theorem C8_local_endpoint_wireguard_witness :
    LocalEndpointCreated (fun _ => none) none stAB epWG = (stAB, LECResult.err)
    ∧ LocalEndpointCreated (fun _ => some "wg0") none stAB epWG
        = ({ stAB with cableRoutingInterface := some "wg0" }, LECResult.ok) :=
  ⟨(C8_local_endpoint_wireguard (fun _ => none) none stAB epWG rfl).1 rfl,
   (C8_local_endpoint_wireguard (fun _ => some "wg0") none stAB epWG rfl).2 "wg0" rfl⟩

/-- C10: when a remote-endpoint event handler returns a reconciliation or
NAT-exemption error, the RemoteEndpointSet mutation has already happened
and is not rolled back: after an erroring create or update (with
non-overlapping subnets) the endpoint's name maps to the new value, and
after an erroring remove the name is absent. -/
theorem C10_mutation_not_rolled_back
    (overlapping : List String → List String → List String → Bool)
    (env : Env) (ovn : Handler) (ep : Endpoint)
    (hov : overlapping ovn.serviceCIDR ovn.clusterCIDR ep.subnets = false) :
    (∀ e, (RemoteEndpointCreated overlapping env ovn ep).2.2 = some e →
       lookupEp (RemoteEndpointCreated overlapping env ovn ep).1.remoteEndpoints
         ep.name = some ep)
    ∧ (∀ e, (RemoteEndpointUpdated overlapping env ovn ep).2.2 = some e →
       lookupEp (RemoteEndpointUpdated overlapping env ovn ep).1.remoteEndpoints
         ep.name = some ep)
    ∧ (∀ e, (RemoteEndpointRemoved env ovn ep).2.2 = some e →
       lookupEp (RemoteEndpointRemoved env ovn ep).1.remoteEndpoints ep.name
         = none) := by
  refine ⟨fun e _ => ?_, fun e _ => ?_, fun e _ => ?_⟩
  · rw [RemoteEndpointCreated_state overlapping env ovn ep hov]
    exact lookupEp_upsert ovn.remoteEndpoints ep.name ep
  · rw [RemoteEndpointUpdated_state overlapping env ovn ep hov]
    exact lookupEp_upsert ovn.remoteEndpoints ep.name ep
  · rw [RemoteEndpointRemoved_state env ovn ep]
    exact lookupEp_removeKey ovn.remoteEndpoints ep.name

/-- C10, witness: with host-network reconciliation failing, the erroring
create leaves endpoint C in the set and the erroring remove leaves
endpoint A's name absent. -/
theorem C10_mutation_not_rolled_back_witness :
    (RemoteEndpointCreated overlapNever envHostFails stAB epC).2.2
        = some Ev.updateHostNetworkDataplane
    ∧ lookupEp (RemoteEndpointCreated overlapNever envHostFails stAB
        epC).1.remoteEndpoints epC.name = some epC
    ∧ (RemoteEndpointRemoved envHostFails stAB epA).2.2
        = some Ev.updateHostNetworkDataplane
    ∧ lookupEp (RemoteEndpointRemoved envHostFails stAB epA).1.remoteEndpoints
        epA.name = none :=
  ⟨rfl,
   (C10_mutation_not_rolled_back overlapNever envHostFails stAB epC rfl).1
     Ev.updateHostNetworkDataplane rfl,
   rfl,
   (C10_mutation_not_rolled_back overlapNever envHostFails stAB epA rfl).2.2
     Ev.updateHostNetworkDataplane rfl⟩

end SubmarinerOVN
